import Mathlib

/- Shallow embedding of the session consensus subsystem of the YELPB
   repository: the SwipeScreen session flow (unnamed/part_002 and
   src/components/SwipeScreen.tsx), the getTopVote helper of the
   multimodal chat (unnamed/part_001), and the sessionService store
   operations that the spec describes (the sessionService module itself
   is not part of the source tree, so those operations are modelled
   from the spec, as marked on each definition). -/

/- ===================== Definitions ===================== -/

/- ---- Swipe ledger (spec section 4.2) ---- -/

/-- One recorded swipe: candidate id, participant id, decision
(liked = true for a right swipe). -/
structure SwipeRec where
  candidateId : String
  participantId : String
  liked : Bool
deriving DecidableEq

/-- Modelled from the spec: sessionService.swipeRestaurant is not under
src (only its caller handleSwipe in unnamed/part_002 lines 757-789 is).
The spec describes recordSwipe as an idempotent upsert keyed by
(candidateId, participant): a new swipe for the same key replaces the
prior one. -/
def recordSwipe (L : List SwipeRec) (c p : String) (d : Bool) : List SwipeRec :=
  L.filter (fun s => !(s.candidateId == c && s.participantId == p)) ++ [⟨c, p, d⟩]

/-- Modelled from the spec: tally(candidateId) counts swipes with
decision = like for that candidate; deduplication by participant is
enforced by the upsert invariant of recordSwipe. -/
def tally (L : List SwipeRec) (c : String) : Nat :=
  (L.filter (fun s => s.candidateId == c && s.liked)).length

/-- Number of ledger entries for one (candidate, participant) key. -/
def keyCount (L : List SwipeRec) (c p : String) : Nat :=
  (L.filter (fun s => s.candidateId == c && s.participantId == p)).length

/-- A ledger built from a sequence of recordSwipe calls, starting empty.
Each element of ops is (candidateId, participantId, decision). -/
def buildLedger (ops : List (String × String × Bool)) : List SwipeRec :=
  ops.foldl (fun L o => recordSwipe L o.1 o.2.1 o.2.2) []

/- ---- Winner resolver (spec section 4.4) ---- -/

/-- Outcome of the resolution algorithm.  The judge is an external
service, so the algorithm result for a tie is the request that would be
sent to it. -/
inductive WinnerOutcome where
  | direct (c : String)
  | needsJudge (top : List String)
  | fallbackEmpty
deriving DecidableEq

/-- Modelled from the spec: sessionService.getWinnerRestaurant is not
under src (only its call site in unnamed/part_002 lines 696-714 is).
Step 2 of the spec resolution algorithm: the highest tally value. -/
def maxCount (ts : List (String × Nat)) : Nat :=
  ts.foldl (fun m t => max m t.2) 0

/-- Modelled from the spec: step 2 of the resolution algorithm, the set
of candidates whose tally equals the maximum, in deck order. -/
def topSet (ts : List (String × Nat)) : List String :=
  (ts.filter (fun t => t.2 == maxCount ts)).map (fun t => t.1)

/-- Modelled from the spec: steps 3-6 of the resolution algorithm.  Step
6 (nobody liked anything skips straight to fallback-empty) is an early
exit: the spec scenario with all-zero tallies expects fallback-empty
with no judge call, so the maxCount = 0 guard is checked before the
singleton topSet case. -/
def resolveWinner (ts : List (String × Nat)) : WinnerOutcome :=
  if maxCount ts = 0 then WinnerOutcome.fallbackEmpty
  else
    match topSet ts with
    | [c] => WinnerOutcome.direct c
    | top => WinnerOutcome.needsJudge top

/- ---- Write-once WinnerRecord commit (spec sections 3 and 4.3) ---- -/

/-- Resolution method recorded on the committed winner. -/
inductive WinMethod where
  | directMajority
  | aiTiebreak
  | fallbackEmpty
deriving DecidableEq

/-- The committed winner record; candidateId is none for
fallback-empty. -/
structure WinnerRecord where
  candidateId : Option String
  method : WinMethod
  justification : Option String
  committedAt : Nat
deriving DecidableEq

/-- The slice of the shared session document that the winner commit
touches. -/
structure SessionDoc where
  winner : Option WinnerRecord
deriving DecidableEq

/-- Error raised by a rejected winner commit. -/
inductive SetWinnerErr where
  | alreadyCommitted
deriving DecidableEq

/-- Modelled from the spec: sessionService.setWinner is not under src
(only its caller, the reveal onClick in unnamed/part_002 lines 696-714,
is).  The spec concurrency contract says the WinnerRecord commit is
write-once: the store must reject, not overwrite, a second attempt to
set the winner of a session. -/
def setWinner (doc : SessionDoc) (rec : WinnerRecord) : Except SetWinnerErr SessionDoc :=
  match doc.winner with
  | some _ => Except.error SetWinnerErr.alreadyCommitted
  | none => Except.ok { doc with winner := some rec }

/- ---- Quorum predicate (unnamed/part_002 lines 693-739) ---- -/

/-- The disabled condition of the owner reveal button:
totalUserCount === 0 || finishedUserCount < totalUserCount. -/
def revealDisabled (finished total : Nat) : Bool :=
  total == 0 || decide (finished < total)

/-- The code counterpart of isQuorumReached: the reveal action is
enabled exactly when the button is not disabled. -/
def revealEnabled (finished total : Nat) : Bool :=
  !(revealDisabled finished total)

/- ---- Preference vote leading option (unnamed/part_001 lines 218-244) ---- -/

/-- One vote entry as stored per option: voter name and timestamp. -/
structure UserVote where
  userName : String
  timestamp : Nat
deriving DecidableEq

/-- The per-category vote map, in Object.entries order: the order in
which option keys were first inserted, that is the order in which each
option first received a vote. -/
abbrev VoteMap := List (String × List UserVote)

/-- Result shape of getTopVote. -/
structure TopVote where
  option : String
  count : Nat
  voters : List String
deriving DecidableEq

/-- Stable insertion used by the descending sort: an element is placed
before the first entry with a vote count less than or equal to its own,
so entries with equal counts keep their original relative order, which
is what the JavaScript stable sort with comparator
(a, b) => b[1].length - a[1].length produces. -/
def insVote (e : String × List UserVote) : VoteMap → VoteMap
  | [] => [e]
  | x :: xs => if x.2.length ≤ e.2.length then e :: x :: xs else x :: insVote e xs

/-- Stable sort of the vote entries by descending vote count, embedding
Object.entries(votes).sort((a, b) => b[1].length - a[1].length). -/
def sortVotes : VoteMap → VoteMap
  | [] => []
  | e :: l => insVote e (sortVotes l)

/-- getTopVote from buildSessionContext in unnamed/part_001: null when
the vote map is empty, otherwise the first entry of the sorted list
with its option key, vote count and voter names. -/
def getTopVote (votes : VoteMap) : Option TopVote :=
  if votes.isEmpty then none
  else
    match sortVotes votes with
    | [] => none
    | e :: _ => some ⟨e.1, e.2.length, e.2.map UserVote.userName⟩

/-- Keeps the earlier of two entries unless the later one has a
strictly larger vote count. -/
def pickEarlier (b x : String × List UserVote) : String × List UserVote :=
  if b.2.length < x.2.length then x else b

/-- The first entry attaining the maximal vote count: the earliest
entry that no later entry strictly beats. -/
def firstMax (e : String × List UserVote) (l : VoteMap) : String × List UserVote :=
  l.foldl pickEarlier e

/-- Timestamp of the most recent vote of an option. -/
def mostRecent (vs : List UserVote) : Nat :=
  vs.foldl (fun m v => max m v.timestamp) 0

/-- The largest vote count in the map. -/
def maxVoteCount (votes : VoteMap) : Nat :=
  (votes.map (fun e => e.2.length)).foldl max 0

/-- Modelled from the spec: the tie-break rule stated by the spec for
leadingOption, used only for comparison with the source function.  For
equal counts the spec picks the option whose most recent vote is oldest
(first-committed-wins). -/
def specLeadingOption (votes : VoteMap) : Option String :=
  match votes.filter (fun e => e.2.length == maxVoteCount votes) with
  | [] => none
  | t :: ts =>
    some ((ts.foldl (fun b x => if mostRecent x.2 < mostRecent b.2 then x else b) t).1)

/- ---- Derived-data cache protocol (unnamed/part_002 lines 844-921) ---- -/

/-- A menu item parsed from the chat response. -/
structure MenuItem where
  name : String
  price : String
  description : String
deriving DecidableEq

/-- A menu category. -/
structure MenuCategory where
  name : String
  items : List MenuItem
deriving DecidableEq

/-- The menu payload built from the chat response. -/
structure MenuData where
  categories : List MenuCategory
  highlights : List String
  priceRange : String
  aiResponse : String
deriving DecidableEq

/-- The menuData object built in handleFlip from a non-empty
chatResponse.response_text (unnamed/part_002 lines 885-893). -/
def parseMenuResponse (text price : String) : MenuData :=
  ⟨[⟨"Popular Items", [⟨text, "", ""⟩]⟩], [], price, text⟩

/-- Where one client is in its handleFlip menu load for one candidate:
it has not looked at the shared cache yet, it has observed a cache miss
and will call the fetcher, or it is finished. -/
inductive FlipPC where
  | start
  | miss
  | done
deriving DecidableEq

/-- Two clients flipping the same candidate card against the shared
cachedMenus entry for that candidate.  Each client runs the handleFlip
sequence: await getCachedMenuData, and on a miss await the fetcher and
then cacheMenuData.  The two awaits make the check and the commit
separate steps that other clients can interleave with. -/
structure FlipSys where
  cache : Option MenuData
  pc0 : FlipPC
  pc1 : FlipPC
  fetches0 : Nat
  fetches1 : Nat

/-- The payload a fetch produces and commits. -/
def fetchedMenu : MenuData :=
  parseMenuResponse "Popular dishes summary" "$$"

/-- One scheduler step: the selected client performs its next await
boundary of handleFlip.  From start it reads the shared cache: a hit
ends its load with no fetch, a miss moves it to the fetch step.  From
miss it calls the fetcher and commits the result to the shared cache. -/
def flipStep (s : FlipSys) (i : Bool) : FlipSys :=
  if i then
    match s.pc1, s.cache with
    | FlipPC.start, some _ => { s with pc1 := FlipPC.done }
    | FlipPC.start, none => { s with pc1 := FlipPC.miss }
    | FlipPC.miss, _ =>
      { s with pc1 := FlipPC.done, fetches1 := s.fetches1 + 1, cache := some fetchedMenu }
    | FlipPC.done, _ => s
  else
    match s.pc0, s.cache with
    | FlipPC.start, some _ => { s with pc0 := FlipPC.done }
    | FlipPC.start, none => { s with pc0 := FlipPC.miss }
    | FlipPC.miss, _ =>
      { s with pc0 := FlipPC.done, fetches0 := s.fetches0 + 1, cache := some fetchedMenu }
    | FlipPC.done, _ => s

/-- Run a schedule (false selects client 0, true selects client 1)
from an empty shared cache with both clients about to flip. -/
def runFlips (sched : List Bool) : FlipSys :=
  sched.foldl flipStep ⟨none, FlipPC.start, FlipPC.start, 0, 0⟩

/-- Invariant of the flip system: a client that is not done has not
fetched, and no client ever fetches twice. -/
def FlipInv (s : FlipSys) : Prop :=
  (s.pc0 ≠ FlipPC.done → s.fetches0 = 0) ∧ s.fetches0 ≤ 1 ∧
  (s.pc1 ≠ FlipPC.done → s.fetches1 = 0) ∧ s.fetches1 ≤ 1

/- ---- Single-client menu load and failure caching ---- -/

/-- The card-local state handleFlip reads and writes for one
restaurant: the flip flag, the loaded menu, the recorded menu error,
and the displayed price used for price_range. -/
structure CardState where
  flipped : Bool
  menuData : Option MenuData
  menuError : Option String
  price : String
deriving DecidableEq

/-- What the chat fetch produced: a non-empty response_text, an empty
response, or a thrown error. -/
inductive FetchOutcome where
  | success (text : String)
  | empty
  | errored
deriving DecidableEq

/-- handleFlip for one client and one restaurant (unnamed/part_002
lines 829-923).  The flip flag always toggles.  A fetch is attempted
only when flipping to the back with no menu data and no prior error;
the shared cache is consulted first, and only on a miss is the fetcher
called.  The returned Bool reports whether the fetcher was called. -/
def handleFlip (st : CardState) (cached : Option MenuData) (outcome : FetchOutcome) :
    CardState × Bool :=
  let isCurrentlyFlipped := st.flipped
  let st1 : CardState := { st with flipped := !st.flipped }
  if isCurrentlyFlipped then (st1, false)
  else if st.menuData.isNone && st.menuError.isNone then
    match cached with
    | some m => ({ st1 with menuData := some m }, false)
    | none =>
      match outcome with
      | FetchOutcome.success text =>
        ({ st1 with menuData := some (parseMenuResponse text st.price) }, true)
      | FetchOutcome.empty =>
        ({ st1 with menuError := some "No menu info available" }, true)
      | FetchOutcome.errored =>
        ({ st1 with menuError := some "Failed to fetch menu info" }, true)
  else (st1, false)

/- ---- Non-owner subscription handler (unnamed/part_002 lines 96-141) ---- -/

/-- The session document snapshot delivered to subscribers, restricted
to the fields the SwipeScreen callback reads.  Restaurants are
represented by their ids in deck order. -/
structure Snapshot where
  sharedRestaurants : List String
  finishedUsers : List String
  users : List String
  winnerId : Option String
deriving DecidableEq

/-- The non-owner client state the subscription callback writes. -/
structure NonOwnerView where
  restaurants : List String
  usedSharedData : Bool
  adoptions : Nat
  finishedCount : Nat
  totalCount : Nat
deriving DecidableEq

/-- The subscription callback body for a non-owner client.  The
captured argument is the value of usedSharedData that the callback
closed over when the effect subscribed: the effect has dependency list
[sessionCode, isOwner], so the callback is created once and the
captured value never changes afterwards, even though
setUsedSharedData(true) updates the React state (the adoptions counter
records how many times the adoption branch runs).  The winner and
cachedMenus branches of the callback are modelled separately with the
reveal flow and the cache protocol. -/
def subCallback (captured : Bool) (data : Snapshot) (v : NonOwnerView) : NonOwnerView :=
  let v1 :=
    if decide (data.sharedRestaurants.length > 0) && !captured then
      { v with
        restaurants := data.sharedRestaurants
        usedSharedData := true
        adoptions := v.adoptions + 1 }
    else v
  { v1 with
    finishedCount := data.finishedUsers.length
    totalCount := data.users.length }

/-- The state before the first snapshot arrives. -/
def initView : NonOwnerView := ⟨[], false, 0, 0, 0⟩

/-- Deliver a sequence of snapshots to the callback.  The captured
closure value stays false for the whole run, because the subscription
is never re-created during a session. -/
def runSnapshots (snaps : List Snapshot) : NonOwnerView :=
  snaps.foldl (fun v d => subCallback false d v) initView

/-- A snapshot carrying the owner published deck. -/
def demoSnap : Snapshot := ⟨["r1", "r2"], ["u1"], ["u1", "u2"], none⟩

/- ---- Owner reveal and winner propagation (unnamed/part_002 lines 114-121 and 693-739) ---- -/

/-- How a client came to navigate to the winner screen: from the winner
it computed locally in the reveal onClick, or from a subscription
snapshot carrying the committed winnerId. -/
inductive NavSource where
  | localCompute
  | subscriptionEvent
deriving DecidableEq

/-- The winner value getWinnerRestaurant resolves to. -/
structure WinnerInfo where
  restaurantId : String
  winningReason : String
deriving DecidableEq

/-- What the reveal onClick produced: the winnerId and reason written
to the store, and the navigation the owner performed, tagged with the
source of the navigated value. -/
structure RevealOutcome where
  committedWinnerId : Option String
  committedReason : Option String
  navigated : Option (NavSource × Option String)
deriving DecidableEq

/-- The owner reveal onClick (unnamed/part_002 lines 696-714): with a
winner it calls setWinner and then navigates the owner directly with
the locally computed winner, without waiting for the subscription; with
no winner it navigates with null. -/
def ownerRevealClick (w : Option WinnerInfo) : RevealOutcome :=
  match w with
  | some winner =>
    { committedWinnerId := some winner.restaurantId
      committedReason := some winner.winningReason
      navigated := some (NavSource.localCompute, some winner.restaurantId) }
  | none =>
    { committedWinnerId := none
      committedReason := none
      navigated := some (NavSource.localCompute, none) }

/-- The winner branch of the subscription callback (unnamed/part_002
lines 114-121): when a snapshot carries a winnerId, look it up in the
deck and navigate to it. -/
def winnerSubSync (deck : List String) (winnerId : Option String) :
    Option (NavSource × Option String) :=
  match winnerId with
  | some wid =>
    match deck.find? (fun r => r == wid) with
    | some r => some (NavSource.subscriptionEvent, some r)
    | none => none
  | none => none

/- ---- Solo-mode winner selection (src/components/SwipeScreen.tsx lines 364-377) ---- -/

/-- The swipe loop of the solo SwipeScreen over the remaining
(candidate, decision) pairs, carrying the likedRestaurants list.  At
the final card the handler schedules the state update appending the
like, but the navigation inside the timeout reads the liked binding
captured before that update (a stale closure), so the final like never
reaches the winner computation.  The winner is the first element of the
captured liked list, looked up in the deck. -/
def soloGo (deck : List String) (liked : List String) :
    List (String × Bool) → Option String
  | [] => none
  | [(_, _)] =>
    match liked with
    | [] => none
    | f :: _ => deck.find? (fun x => x == f)
  | (r, d) :: rest => soloGo deck (if d then liked ++ [r] else liked) rest

/-- Run a full solo session: swipe every deck card with the given
decisions and return the navigated winner. -/
def soloWinner (deck : List String) (ds : List Bool) : Option String :=
  soloGo deck [] (deck.zip ds)

/- ===================== Theorems ===================== -/

/- ---- C1: write-once winner commit ---- -/

/-- Claim C1: at most one WinnerRecord is ever committed per session.
A first commit on a session with no winner succeeds, and a second
commit attempt on the resulting document is rejected with
alreadyCommitted while the stored winner stays the first record. -/
theorem setWinner_write_once (doc : SessionDoc) (r1 r2 : WinnerRecord)
    (doc1 : SessionDoc) (h : setWinner doc r1 = Except.ok doc1) :
    setWinner doc1 r2 = Except.error SetWinnerErr.alreadyCommitted ∧
    doc1.winner = some r1 := by
  unfold setWinner at h ⊢
  cases hw : doc.winner with
  | some r => rw [hw] at h; exact absurd h (by simp)
  | none =>
    rw [hw] at h
    have hd : doc1 = { doc with winner := some r1 } := by
      cases h; rfl
    subst hd
    exact ⟨rfl, rfl⟩

/-- Witness for C1 at a concrete session document and records. -/
theorem setWinner_write_once_witness :
    setWinner { winner := some ⟨some "A", WinMethod.directMajority, none, 5⟩ }
        ⟨some "B", WinMethod.directMajority, none, 9⟩ =
      Except.error SetWinnerErr.alreadyCommitted ∧
    SessionDoc.winner { winner := some ⟨some "A", WinMethod.directMajority, none, 5⟩ } =
      some ⟨some "A", WinMethod.directMajority, none, 5⟩ :=
  setWinner_write_once { winner := none }
    ⟨some "A", WinMethod.directMajority, none, 5⟩
    ⟨some "B", WinMethod.directMajority, none, 9⟩
    { winner := some ⟨some "A", WinMethod.directMajority, none, 5⟩ } rfl

/- ---- C2: deterministic direct-majority resolution ---- -/

/-- Counterexample to claim C2 as stated: a tally snapshot with a
unique maximum whose maximal count is zero.  The resolution algorithm
commits fallback-empty there (nobody liked anything), not the sole
member of the top set. -/
theorem resolveWinner_zero_max_counterexample :
    topSet [("A", 0)] = ["A"] ∧
    resolveWinner [("A", 0)] = WinnerOutcome.fallbackEmpty ∧
    WinnerOutcome.fallbackEmpty ≠ WinnerOutcome.direct "A" := by
  refine ⟨rfl, rfl, ?_⟩
  intro h
  exact WinnerOutcome.noConfusion h

/-- Claim C2 as amended: on a tally snapshot whose maximal count is
positive and whose top set is a single candidate, the resolution
algorithm commits that candidate as a direct-majority winner; being a
pure function of the snapshot, a second run returns the same result. -/
theorem resolveWinner_unique_max (ts : List (String × Nat)) (c : String)
    (hpos : 0 < maxCount ts) (htop : topSet ts = [c]) :
    resolveWinner ts = WinnerOutcome.direct c := by
  unfold resolveWinner
  rw [if_neg (by omega), htop]

/-- Witness for the amended C2 at a concrete snapshot. -/
theorem resolveWinner_unique_max_witness :
    0 < maxCount [("A", 2), ("B", 1)] ∧
    topSet [("A", 2), ("B", 1)] = ["A"] ∧
    resolveWinner [("A", 2), ("B", 1)] = WinnerOutcome.direct "A" :=
  ⟨by decide, rfl, resolveWinner_unique_max [("A", 2), ("B", 1)] "A" (by decide) rfl⟩

/- ---- C4: quorum predicate ---- -/

/-- Claim C4: the reveal action is enabled (the code counterpart of
isQuorumReached) exactly when the finished-user count is at least the
membership count and the membership count is positive; in particular it
is disabled whenever the finished count is below the membership
count. -/
theorem revealEnabled_iff :
    (∀ f t : Nat, revealEnabled f t = true ↔ (t ≤ f ∧ 0 < t)) ∧
    (∀ f t : Nat, f < t → revealEnabled f t = false) := by
  constructor
  · intro f t
    simp [revealEnabled, revealDisabled]
    omega
  · intro f t h
    simp [revealEnabled, revealDisabled]
    omega

/-- Witness for C4 at concrete counts. -/
theorem revealEnabled_iff_witness :
    (revealEnabled 2 2 = true ↔ (2 ≤ 2 ∧ 0 < 2)) ∧ revealEnabled 1 2 = false :=
  ⟨revealEnabled_iff.1 2 2, revealEnabled_iff.2 1 2 (by decide)⟩

/- ---- C10: solo-mode winner ---- -/

/-- Claim C10 evaluated at the failing input: in solo mode with deck
[A] and a right swipe on A, the navigation receives null because the
timeout reads the liked list captured before the final like was
appended; the claim expects A, the first right-swiped candidate.  The
second conjunct shows that a like recorded before the final card does
reach the winner computation, so the stale closure on the final card is
the only divergence. -/
theorem soloWinner_final_like_dropped :
    soloWinner ["A"] [true] = none ∧
    soloWinner ["A", "B"] [true, false] = some "A" := ⟨rfl, rfl⟩

/- ---- C7: deck adoption by non-owner clients ---- -/

/-- Claim C7 evaluated at the failing input: after the first snapshot
the usedSharedData state is true, yet a second snapshot carrying the
shared deck runs the adoption branch again, because the subscription
callback closed over the initial false value of usedSharedData; the
claim says the shared deck is adopted at most once.  The last conjunct
records that re-adoption still leaves the deck ids and order equal to
the published deck. -/
theorem sharedDeck_adopted_twice :
    (runSnapshots [demoSnap]).usedSharedData = true ∧
    (runSnapshots [demoSnap, demoSnap]).adoptions = 2 ∧
    (runSnapshots [demoSnap, demoSnap]).restaurants = demoSnap.sharedRestaurants :=
  ⟨rfl, rfl, rfl⟩

/- ---- C8: winner propagation ---- -/

/-- Counterexample to claim C8 as stated: in the reveal onClick the
owner navigates with the winner it computed locally, tagged
localCompute, instead of reacting to the committed record through its
subscription. -/
theorem owner_navigates_locally :
    (ownerRevealClick (some ⟨"A", "cozy vibe"⟩)).navigated =
      some (NavSource.localCompute, some "A") ∧
    NavSource.localCompute ≠ NavSource.subscriptionEvent := by
  refine ⟨rfl, ?_⟩
  intro h
  exact NavSource.noConfusion h

/-- Claim C8 as amended: non-owner clients obtain the winner from the
subscription snapshot carrying the committed winnerId, while the owner
commits that same id and navigates directly with its locally computed
winner; both navigations name the same candidate, so all participants
converge on the identical winning candidate. -/
theorem winner_convergence (deck : List String) (w : WinnerInfo)
    (hmem : w.restaurantId ∈ deck) :
    (ownerRevealClick (some w)).committedWinnerId = some w.restaurantId ∧
    (ownerRevealClick (some w)).navigated =
      some (NavSource.localCompute, some w.restaurantId) ∧
    winnerSubSync deck ((ownerRevealClick (some w)).committedWinnerId) =
      some (NavSource.subscriptionEvent, some w.restaurantId) := by
  refine ⟨rfl, rfl, ?_⟩
  have hsome : (deck.find? (fun r => r == w.restaurantId)).isSome := by
    rw [List.find?_isSome]
    exact ⟨w.restaurantId, hmem, by simp⟩
  cases hf : deck.find? (fun r => r == w.restaurantId) with
  | none => rw [hf] at hsome; exact absurd hsome (by simp)
  | some r =>
    have hr : r = w.restaurantId := by
      have := List.find?_some hf
      simpa using this
    subst hr
    simp [winnerSubSync, ownerRevealClick, hf]

/-- Witness for the amended C8 at a concrete deck and winner. -/
theorem winner_convergence_witness :
    (ownerRevealClick (some ⟨"B", "group pick"⟩)).committedWinnerId = some "B" ∧
    (ownerRevealClick (some ⟨"B", "group pick"⟩)).navigated =
      some (NavSource.localCompute, some "B") ∧
    winnerSubSync ["A", "B"]
        ((ownerRevealClick (some ⟨"B", "group pick"⟩)).committedWinnerId) =
      some (NavSource.subscriptionEvent, some "B") :=
  winner_convergence ["A", "B"] ⟨"B", "group pick"⟩ (by simp)

/- ---- C6: leading option and its tie-break ---- -/

/-- A tied vote map: option A received votes at times 1 and 4, option B
at times 2 and 3, so both count 2; A was the first option to receive a
vote, so it is the first entry. -/
def tieVotes : VoteMap :=
  [("A", [⟨"pa", 1⟩, ⟨"pc", 4⟩]), ("B", [⟨"pb", 2⟩, ⟨"pd", 3⟩])]

/-- Counterexample to the tie-break stated in claim C6: on tieVotes the
code returns option A, the first entry in vote-map order, while the
option whose most recent vote is oldest is B (most recent vote 3
against 4), so the stated first-committed-wins rule names a different
option than the code. -/
theorem getTopVote_tiebreak_counterexample :
    getTopVote tieVotes = some ⟨"A", 2, ["pa", "pc"]⟩ ∧
    specLeadingOption tieVotes = some "B" ∧
    mostRecent [⟨"pb", (2 : Nat)⟩, ⟨"pd", 3⟩] < mostRecent [⟨"pa", (1 : Nat)⟩, ⟨"pc", 4⟩] ∧
    ("A" : String) ≠ "B" := by
  refine ⟨rfl, rfl, by decide, ?_⟩
  intro h
  simp at h

/- ---- C3: idempotent swipe upsert ---- -/

/-- A second recordSwipe for the same (candidate, participant) key
replaces the first: the resulting ledger is the one obtained by
recording only the later swipe. -/
theorem recordSwipe_overwrite (L : List SwipeRec) (c p : String) (d d2 : Bool) :
    recordSwipe (recordSwipe L c p d) c p d2 = recordSwipe L c p d2 := by
  simp [recordSwipe, List.filter_append, List.filter_filter]

/-- Filtering away the entries of a key leaves no entry of that key. -/
theorem filter_not_key_no_key (L : List SwipeRec) (c0 p0 : String) :
    (L.filter (fun s => !(s.candidateId == c0 && s.participantId == p0))).filter
      (fun s => s.candidateId == c0 && s.participantId == p0) = [] := by
  apply List.filter_eq_nil_iff.mpr
  intro a ha
  have hq := (List.mem_filter.mp ha).2
  simp only [Bool.not_eq_true'] at hq
  simp [hq]

/-- The freshly appended swipe does not carry a different key. -/
theorem filter_single_other (c0 p0 c p : String) (d : Bool) (hc : ¬(c0 = c ∧ p0 = p)) :
    List.filter (fun s => s.candidateId == c && s.participantId == p)
      [(⟨c0, p0, d⟩ : SwipeRec)] = [] := by
  have hk : ((⟨c0, p0, d⟩ : SwipeRec).candidateId == c &&
      (⟨c0, p0, d⟩ : SwipeRec).participantId == p) = false := by
    by_contra hcon
    rw [Bool.not_eq_false] at hcon
    simp only [Bool.and_eq_true, beq_iff_eq] at hcon
    exact hc hcon
  simp [List.filter_cons, hk]

/-- recordSwipe preserves the at-most-one-entry-per-key invariant. -/
theorem keyCount_recordSwipe (L : List SwipeRec) (c0 p0 c p : String) (d : Bool)
    (h : keyCount L c p ≤ 1) : keyCount (recordSwipe L c0 p0 d) c p ≤ 1 := by
  unfold keyCount recordSwipe
  rw [List.filter_append, List.length_append]
  by_cases hc : c0 = c ∧ p0 = p
  · obtain ⟨hc1, hc2⟩ := hc
    subst hc1; subst hc2
    rw [filter_not_key_no_key L c0 p0]
    simp
  · rw [filter_single_other c0 p0 c p d hc]
    have hlen : ((L.filter (fun s => !(s.candidateId == c0 && s.participantId == p0))).filter
          (fun s => s.candidateId == c && s.participantId == p)).length ≤
        (L.filter (fun s => s.candidateId == c && s.participantId == p)).length :=
      List.Sublist.length_le (List.Sublist.filter _ (List.filter_sublist L))
    unfold keyCount at h
    simp only [List.length_nil, Nat.add_zero]
    omega

/-- Folding recordSwipe over any operation sequence preserves the
at-most-one-entry-per-key invariant. -/
theorem foldl_recordSwipe_keyCount :
    ∀ (ops : List (String × String × Bool)) (L : List SwipeRec),
      (∀ c p, keyCount L c p ≤ 1) →
      ∀ c p, keyCount (ops.foldl (fun L o => recordSwipe L o.1 o.2.1 o.2.2) L) c p ≤ 1 := by
  intro ops
  induction ops with
  | nil => exact fun L h => h
  | cons o rest ih =>
    intro L h c p
    rw [List.foldl_cons]
    exact ih _ (fun c2 p2 => keyCount_recordSwipe _ _ _ _ _ _ (h c2 p2)) c p

/-- Claim C3: only the last decision for a (candidate, participant)
pair counts.  Replaying an identical swipe leaves every tally
unchanged, a later swipe for the same key overwrites the earlier one,
and every ledger built from recordSwipe calls holds at most one entry
per (candidate, participant) key, so a participant is never counted
twice for one candidate. -/
theorem swipe_last_decision_wins :
    (∀ (L : List SwipeRec) (c p : String) (d : Bool) (cc : String),
      tally (recordSwipe (recordSwipe L c p d) c p d) cc = tally (recordSwipe L c p d) cc) ∧
    (∀ (L : List SwipeRec) (c p : String) (d d2 : Bool),
      recordSwipe (recordSwipe L c p d) c p d2 = recordSwipe L c p d2) ∧
    (∀ (ops : List (String × String × Bool)) (c p : String),
      keyCount (buildLedger ops) c p ≤ 1) := by
  refine ⟨?_, recordSwipe_overwrite, ?_⟩
  · intro L c p d cc
    rw [recordSwipe_overwrite]
  · intro ops c p
    exact foldl_recordSwipe_keyCount ops [] (fun c2 p2 => by simp [keyCount]) c p

/- ---- C5: menu fetch single-flight ---- -/

/-- One scheduler step preserves the flip invariant: program counters
only advance, and a client fetches exactly on its miss-to-done step. -/
theorem flipStep_inv (s : FlipSys) (i : Bool) (h : FlipInv s) : FlipInv (flipStep s i) := by
  obtain ⟨h0, h1, h2, h3⟩ := h
  unfold FlipInv flipStep at *
  cases i <;> cases hpc0 : s.pc0 <;> cases hpc1 : s.pc1 <;> cases hcache : s.cache <;>
    simp_all

/-- Every schedule preserves the flip invariant. -/
theorem runFlips_inv :
    ∀ (sched : List Bool) (s : FlipSys), FlipInv s → FlipInv (sched.foldl flipStep s) := by
  intro sched
  induction sched with
  | nil => exact fun s h => h
  | cons b bs ih =>
    intro s h
    rw [List.foldl_cons]
    exact ih _ (flipStep_inv s b h)

/-- Counterexample to claim C5 as stated: under the interleaving in
which both clients read the shared cache before either commits, both
observe a miss and both call the fetcher, so two concurrent
first-callers produce two fetches for the same candidate, not at most
one. -/
theorem concurrent_first_callers_double_fetch :
    ¬ ((runFlips [false, true, false, true]).fetches0 +
        (runFlips [false, true, false, true]).fetches1 ≤ 1) := by
  have h : (runFlips [false, true, false, true]).fetches0 +
      (runFlips [false, true, false, true]).fetches1 = 2 := rfl
  omega

/-- Claim C5 as amended: each client calls the fetcher at most once per
flip under every interleaving, and a client that finds a ready entry
returns it without fetching, so sequential first-callers produce one
fetch in total; but with no atomic pending claim, concurrent
first-callers may each fetch (see the counterexample). -/
theorem menu_fetch_per_client_once :
    (∀ sched : List Bool,
      (runFlips sched).fetches0 ≤ 1 ∧ (runFlips sched).fetches1 ≤ 1) ∧
    (runFlips [false, false, true, true]).fetches0 = 1 ∧
    (runFlips [false, false, true, true]).fetches1 = 0 := by
  refine ⟨?_, rfl, rfl⟩
  intro sched
  have h := runFlips_inv sched ⟨none, FlipPC.start, FlipPC.start, 0, 0⟩
    ⟨fun _ => rfl, Nat.zero_le 1, fun _ => rfl, Nat.zero_le 1⟩
  exact ⟨h.2.1, h.2.2.2⟩

/- ---- C9: failed menu lookup is not retried ---- -/

/-- Claim C9: once a menu error is recorded for a restaurant, any later
handleFlip on that card only toggles the flip flag and never calls the
fetcher; and a failing fetch records the failure on the card as the
menu error shown as unavailable. -/
theorem menu_error_no_retry :
    (∀ (st : CardState) (cached : Option MenuData) (outcome : FetchOutcome) (e : String),
      st.menuError = some e →
      handleFlip st cached outcome = ({ st with flipped := !st.flipped }, false)) ∧
    (∀ st : CardState, st.flipped = false → st.menuData = none → st.menuError = none →
      (handleFlip st none FetchOutcome.errored).1.menuError =
        some "Failed to fetch menu info" ∧
      (handleFlip st none FetchOutcome.errored).2 = true) := by
  constructor
  · intro st cached outcome e he
    by_cases hf : st.flipped = true
    · simp [handleFlip, hf]
    · simp [handleFlip, hf, he]
  · intro st hf hd he
    simp [handleFlip, hf, hd, he]

/-- Witness for C9 at a concrete card: a card with a recorded error is
flipped again with no fetch, and a failing fetch on a clean card
records the error. -/
theorem menu_error_no_retry_witness :
    handleFlip ⟨false, none, some "Failed to fetch menu info", "$$"⟩ none
        FetchOutcome.errored =
      (⟨true, none, some "Failed to fetch menu info", "$$"⟩, false) ∧
    (handleFlip ⟨false, none, none, "$$"⟩ none FetchOutcome.errored).1.menuError =
      some "Failed to fetch menu info" ∧
    (handleFlip ⟨false, none, none, "$$"⟩ none FetchOutcome.errored).2 = true :=
  ⟨menu_error_no_retry.1 ⟨false, none, some "Failed to fetch menu info", "$$"⟩ none
      FetchOutcome.errored "Failed to fetch menu info" rfl,
    (menu_error_no_retry.2 ⟨false, none, none, "$$"⟩ rfl rfl rfl).1,
    (menu_error_no_retry.2 ⟨false, none, none, "$$"⟩ rfl rfl rfl).2⟩

/- ---- C6: leading option, amended ---- -/

/-- pickEarlier is associative: selecting the earliest entry of maximal
count does not depend on the grouping. -/
theorem pickEarlier_assoc (a b x : String × List UserVote) :
    pickEarlier (pickEarlier a b) x = pickEarlier a (pickEarlier b x) := by
  unfold pickEarlier
  split_ifs <;> first | rfl | omega

/-- Pushing one pickEarlier through firstMax. -/
theorem firstMax_step :
    ∀ (xs : VoteMap) (a b : String × List UserVote),
      firstMax (pickEarlier a b) xs = pickEarlier a (firstMax b xs) := by
  intro xs
  induction xs with
  | nil => intro a b; rfl
  | cons x xs ih =>
    intro a b
    simp only [firstMax, List.foldl_cons]
    rw [pickEarlier_assoc]
    have h := ih a (pickEarlier b x)
    simp only [firstMax] at h
    exact h

/-- The stable descending sort puts the first entry of maximal vote
count at the head. -/
theorem sortVotes_cons_head :
    ∀ (l : VoteMap) (e : String × List UserVote),
      ∃ t, sortVotes (e :: l) = firstMax e l :: t := by
  intro l
  induction l with
  | nil => intro e; exact ⟨[], rfl⟩
  | cons x xs ih =>
    intro e
    obtain ⟨t, ht⟩ := ih x
    have hs : sortVotes (e :: x :: xs) = insVote e (sortVotes (x :: xs)) := rfl
    have hfm : firstMax e (x :: xs) = pickEarlier e (firstMax x xs) := by
      simp only [firstMax, List.foldl_cons]
      exact firstMax_step xs e x
    rw [hs, ht]
    by_cases hc : (firstMax x xs).2.length ≤ e.2.length
    · refine ⟨firstMax x xs :: t, ?_⟩
      rw [show insVote e (firstMax x xs :: t) = e :: firstMax x xs :: t from by
        simp [insVote, hc]]
      rw [hfm, show pickEarlier e (firstMax x xs) = e from by
        unfold pickEarlier; rw [if_neg (by omega)]]
    · refine ⟨insVote e t, ?_⟩
      rw [show insVote e (firstMax x xs :: t) = firstMax x xs :: insVote e t from by
        simp [insVote, hc]]
      rw [hfm, show pickEarlier e (firstMax x xs) = firstMax x xs from by
        unfold pickEarlier; rw [if_pos (by omega)]]

/-- Claim C6 as amended: getTopVote returns none on an empty vote map,
and otherwise the first entry of the map attaining the maximal vote
count, with its count and voter names — for equal counts the option
that first received a vote wins, not the option whose most recent vote
is oldest.  The last conjunct is the budget scenario of the claim. -/
theorem getTopVote_first_max :
    (getTopVote [] = none) ∧
    (∀ (e : String × List UserVote) (l : VoteMap),
      getTopVote (e :: l) =
        some ⟨(firstMax e l).1, (firstMax e l).2.length,
          (firstMax e l).2.map UserVote.userName⟩) ∧
    getTopVote [("$$", [⟨"P1", 1⟩, ⟨"P3", 3⟩]), ("$$$", [⟨"P2", 2⟩])] =
      some ⟨"$$", 2, ["P1", "P3"]⟩ := by
  refine ⟨rfl, ?_, rfl⟩
  intro e l
  obtain ⟨t, ht⟩ := sortVotes_cons_head l e
  simp only [getTopVote, List.isEmpty_cons, ht]
  simp
